import Mathlib

/-!
Verification of the extension resolver of `cdk-cloudfront-plus`
(`src/extensions.ts`).

The source file defines one class per extension kind.  Each constructor is a
pure computation from the caller-supplied property bag to the data handed to
the provisioning layer: a fixed Lambda@Edge event type, an optional
`includeBody` flag, either a serverless-application reference
(`applicationId`, `semanticVersion`, template `parameters`) or a Lambda
function description (runtime, handler, code location, esbuild `define`
bundling entries, managed IAM policies), plus a solution id and a template
description.  We embed every constructor as a function producing an
`ExtensionDescriptor` value and prove the specification's claims about that
mapping.
-/

/-- Lambda@Edge event types (`cf.LambdaEdgeEventType` in the source). -/
inductive LambdaEdgeEventType
  | viewerRequest
  | originRequest
  | originResponse
  | viewerResponse
deriving DecidableEq, BEq, Repr

/-- Error taxonomy named by the specification (section 7).  The source code of
`extensions.ts` never throws either error; the resolver is nevertheless given
an `Except` codomain so that the spec's failure claims can be stated. -/
inductive ResolveError
  | invalidConfiguration
  | unsupportedEventTypeCombination
deriving DecidableEq, BEq, Repr

/-- The resolved descriptor: every datum an extension constructor computes and
hands to the provisioning layer.  Serverless-application kinds populate
`applicationId`/`semanticVersion`/`parameters`; `Custom`-based kinds populate
`runtime`/`handler`/`codeLocation`/`bundlingDefine`/`requiredManagedPolicies`
and the nested-stack description fields. -/
structure ExtensionDescriptor where
  eventType : LambdaEdgeEventType
  includeBody : Bool
  applicationId : Option String
  semanticVersion : Option String
  parameters : List (String × String)
  runtime : Option String
  handler : Option String
  codeLocation : Option String
  bundlingDefine : List (String × String)
  requiredManagedPolicies : List String
  solutionId : Option String
  templateDescription : Option String
deriving DecidableEq, Repr

/-- Construct properties for `AntiHotlinking` (`extensions.ts` lines 62-67). -/
structure AntiHotlinkingProps where
  referer : List String
deriving DecidableEq, Repr

/-- Construct properties for `MultipleOriginIpRetry` (lines 117-129). -/
structure MultipleOriginIpRetryProps where
  originIp : List String
  originProtocol : String
deriving DecidableEq, Repr

/-- Construct properties for `AccessOriginByGeolocation` (lines 365-371).  The
JavaScript object `\x7b [code: string]: string \x7d` is embedded as an
association list in insertion order, matching `JSON.stringify` key order. -/
structure AccessOriginByGeolocationProps where
  countryTable : List (String × String)
deriving DecidableEq, Repr

/-- Construct properties for `RedirectByGeolocation` (lines 397-403). -/
structure RedirectByGeolocationProps where
  countryTable : List (String × String)
deriving DecidableEq, Repr

/-- Construct properties for `OAuth2AuthorizationCodeGrant` (lines 456-466). -/
structure OAuth2AuthorizationCodeGrantProps where
  clientId : String
  clientSecret : String
  clientDomain : String
  clientPublicKey : String
  callbackPath : String
  jwtArgorithm : String
  authorizeUrl : String
  authorizeParams : String
  debugEnable : Bool
deriving DecidableEq, Repr

/-- Construct properties for `GlobalDataIngestion` (lines 503-508). -/
structure GlobalDataIngestionProps where
  firehoseStreamName : String
deriving DecidableEq, Repr

/-- The description of a `lambda.Function` as far as the resolver computes it:
runtime, handler, code entry point, esbuild `define` bundling entries, and the
managed policies attached to the function's execution role. -/
structure FunctionSpec where
  runtime : String
  handler : String
  codeLocation : String
  bundlingDefine : List (String × String)
  managedPolicies : List String
deriving DecidableEq, Repr

/-- Construct properties for the `Custom` extension (`CustomProps`, lines
177-267 of `extensions.ts`).  `timeoutSeconds` embeds the `cdk.Duration`
timeout. -/
structure CustomProps where
  func : Option FunctionSpec
  code : Option String
  runtime : Option String
  handler : Option String
  timeoutSeconds : Option Nat
  eventType : Option LambdaEdgeEventType
  includeBody : Option Bool
  solutionId : Option String
  templateDescription : Option String
deriving DecidableEq, Repr

/-- A `CustomProps` value with every optional property omitted. -/
def baseCustomProps : CustomProps :=
  { func := none
    code := none
    runtime := none
    handler := none
    timeoutSeconds := none
    eventType := none
    includeBody := none
    solutionId := none
    templateDescription := none }

/-- JavaScript `Array.prototype.join(sep)`: elements concatenated with `sep`
between consecutive elements, empty string for the empty array.  Used at
`props.referer.join(',')` (line 83) and `props.originIp.join(';')`
(line 145). -/
def jsJoin (sep : String) : List String → String
  | [] => ""
  | [x] => x
  | x :: xs => x ++ sep ++ jsJoin sep xs

/-- Hexadecimal digit character for `n < 16`, lower case. -/
def hexDigitChar (n : Nat) : Char :=
  if n < 10 then Char.ofNat (48 + n) else Char.ofNat (87 + n)

/-- Character escaping performed by `JSON.stringify` inside string literals. -/
def jsonEscapeChar (c : Char) : List Char :=
  if c = '"' then ['\\', '"']
  else if c = '\\' then ['\\', '\\']
  else if c = '\x08' then ['\\', 'b']
  else if c = '\x09' then ['\\', 't']
  else if c = '\x0a' then ['\\', 'n']
  else if c = '\x0c' then ['\\', 'f']
  else if c = '\x0d' then ['\\', 'r']
  else if c.toNat < 32 then
    ['\\', 'u', '0', '0', hexDigitChar (c.toNat / 16), hexDigitChar (c.toNat % 16)]
  else [c]

/-- `JSON.stringify` of a string value. -/
def jsonStringifyString (s : String) : String :=
  String.mk ('"' :: (s.data.map jsonEscapeChar).flatten ++ ['"'])

/-- `JSON.stringify` of a plain string-to-string object, keys in insertion
order. -/
def jsonStringifyTable (t : List (String × String)) : String :=
  "\x7b"
    ++ String.intercalate ","
      (t.map (fun kv => jsonStringifyString kv.1 ++ ":" ++ jsonStringifyString kv.2))
    ++ "\x7d"

/-- `JSON.stringify` of a boolean value. -/
def jsonStringifyBool (b : Bool) : String :=
  if b then "true" else "false"

/-- Global, non-overlapping, left-to-right replacement of `pat` by `repl` in a
character list, fuelled by the length of the scanned list (each step consumes
at least one character when `pat` is non-empty).  This is the semantics of the
JavaScript `String.prototype.replace` with a global one-alternative regex. -/
def replaceFrom : Nat → List Char → List Char → List Char → List Char
  | 0, _, _, l => l
  | _ + 1, _, _, [] => []
  | fuel + 1, pat, repl, c :: rest =>
    if pat.isPrefixOf (c :: rest) && !pat.isEmpty then
      repl ++ replaceFrom fuel pat repl (List.drop (pat.length - 1) rest)
    else
      c :: replaceFrom fuel pat repl rest

/-- String-level wrapper of `replaceFrom`: JavaScript
`s.replace(new RegExp(pat, 'g'), repl)` for a literal pattern. -/
def jsReplaceAll (s pat repl : String) : String :=
  String.mk (replaceFrom s.data.length pat.data repl.data s.data)

/-- The two escape passes of `jsonStringifiedBundlingDefinition` (lines
449-453): every `"` becomes `\"`, then every `,` becomes `\,`. -/
def bundlingEscape (s : String) : String :=
  jsReplaceAll (jsReplaceAll s "\"" "\\\"") "," "\\,"

/-- `jsonStringifiedBundlingDefinition` applied to a string value. -/
def jsonStringifiedBundlingDefinitionStr (s : String) : String :=
  bundlingEscape (jsonStringifyString s)

/-- `jsonStringifiedBundlingDefinition` applied to a string-to-string table. -/
def jsonStringifiedBundlingDefinitionTable (t : List (String × String)) : String :=
  bundlingEscape (jsonStringifyTable t)

/-- `jsonStringifiedBundlingDefinition` applied to a boolean value. -/
def jsonStringifiedBundlingDefinitionBool (b : Bool) : String :=
  bundlingEscape (jsonStringifyBool b)

/-- The asset directory constant `EXTENSION_ASSETS_PATH` of `extensions.ts`
(line 12), relative to the package root. -/
def EXTENSION_ASSETS_PATH : String := "lambda-assets/extensions"

/-- Descriptor of a `ServerlessApp`-backed extension: application id, semantic
version, template parameters, event type; `includeBody` is left at its
documented default `false` (`IExtensions.includeBody`, lines 30-35). -/
def serverlessDescr (appId semVer : String) (params : List (String × String))
    (et : LambdaEdgeEventType) : ExtensionDescriptor :=
  { eventType := et
    includeBody := false
    applicationId := some appId
    semanticVersion := some semVer
    parameters := params
    runtime := none
    handler := none
    codeLocation := none
    bundlingDefine := []
    requiredManagedPolicies := []
    solutionId := none
    templateDescription := none }

/-- `ModifyResponseHeader` (lines 43-57). -/
def modifyResponseHeaderDescr : ExtensionDescriptor :=
  serverlessDescr
    "arn:aws:serverlessrepo:us-east-1:418289889111:applications/modify-response-header"
    "1.0.0" [] LambdaEdgeEventType.originResponse

/-- `AntiHotlinking` (lines 74-91): parameter `RefererList` is
`props.referer.join(',')`. -/
def antiHotlinkingDescr (p : AntiHotlinkingProps) : ExtensionDescriptor :=
  serverlessDescr
    "arn:aws:serverlessrepo:us-east-1:418289889111:applications/anti-hotlinking"
    "1.2.5" [("RefererList", jsJoin "," p.referer)] LambdaEdgeEventType.viewerRequest

/-- `SecurtyHeaders` (lines 98-112); the class name typo is the source's. -/
def securtyHeadersDescr : ExtensionDescriptor :=
  serverlessDescr
    "arn:aws:serverlessrepo:us-east-1:418289889111:applications/add-security-headers"
    "1.0.0" [] LambdaEdgeEventType.originResponse

/-- `MultipleOriginIpRetry` (lines 136-154): `OriginIPList` is
`props.originIp.join(';')` and `OriginProtocol` is passed verbatim. -/
def multipleOriginIpRetryDescr (p : MultipleOriginIpRetryProps) : ExtensionDescriptor :=
  serverlessDescr
    "arn:aws:serverlessrepo:us-east-1:418289889111:applications/multiple-origin-IP-retry"
    "1.0.1"
    [("OriginIPList", jsJoin ";" p.originIp), ("OriginProtocol", p.originProtocol)]
    LambdaEdgeEventType.originRequest

/-- `NormalizeQueryString` (lines 161-175). -/
def normalizeQueryStringDescr : ExtensionDescriptor :=
  serverlessDescr
    "arn:aws:serverlessrepo:us-east-1:418289889111:applications/normalize-query-string"
    "1.0.1" [] LambdaEdgeEventType.viewerRequest

/-- The `Custom` constructor (lines 271-306).  When `func` is absent a Lambda
function is created from the `code`/`runtime`/`handler` properties with the
documented defaults; `eventType` defaults to `ORIGIN_RESPONSE` (line 290) and
`includeBody` to `false` (line 291).  No validation of any combination is
performed by the source.  The template description is
`(${solutionId}) ${templateDescription}` (line 296), where JavaScript string
interpolation prints `undefined` for absent properties. -/
def customResolve (props : CustomProps) : ExtensionDescriptor :=
  let f : FunctionSpec :=
    match props.func with
    | some g => g
    | none =>
      { runtime := props.runtime.getD "PYTHON_3_8"
        handler := props.handler.getD "index.lambda_handler"
        codeLocation := props.code.getD "lambda/function"
        bundlingDefine := []
        managedPolicies := [] }
  { eventType := props.eventType.getD LambdaEdgeEventType.originResponse
    includeBody := props.includeBody.getD false
    applicationId := none
    semanticVersion := none
    parameters := []
    runtime := some f.runtime
    handler := some f.handler
    codeLocation := some f.codeLocation
    bundlingDefine := f.bundlingDefine
    requiredManagedPolicies := f.managedPolicies
    solutionId := props.solutionId
    templateDescription :=
      some ("(" ++ props.solutionId.getD "undefined" ++ ") "
        ++ props.templateDescription.getD "undefined") }

/-- The `CustomProps` assembled by the `DefaultDirIndex` constructor (lines
326-342). -/
def defaultDirIndexProps : CustomProps :=
  { baseCustomProps with
    func := some
      { runtime := "NODEJS_12_X"
        handler := "index.handler"
        codeLocation := EXTENSION_ASSETS_PATH ++ "/cf-default-dir-index/index.ts"
        bundlingDefine := []
        managedPolicies := [] }
    eventType := some LambdaEdgeEventType.originRequest
    solutionId := some "SO8134"
    templateDescription :=
      some "Cloudfront extension with AWS CDK - Default Directory Index for Amazon S3 Origin." }

/-- The `CustomProps` assembled by the `CustomErrorPage` constructor (lines
349-363). -/
def customErrorPageProps : CustomProps :=
  { baseCustomProps with
    runtime := some "PYTHON_3_7"
    handler := some "index.handler"
    code := some (EXTENSION_ASSETS_PATH ++ "/cf-custom-error-page")
    eventType := some LambdaEdgeEventType.originResponse
    solutionId := some "SO8136"
    templateDescription := some "Cloudfront extension with AWS CDK - Custom Error Page" }

/-- The `CustomProps` assembled by the `AccessOriginByGeolocation` constructor
(lines 376-395): the country table is serialized by
`jsonStringifiedBundlingDefinition` into the `COUNTRY_CODE_TABLE` bundling
definition.  The solution id string `S08118` is the source's verbatim. -/
def accessOriginByGeolocationCustomProps
    (p : AccessOriginByGeolocationProps) : CustomProps :=
  { baseCustomProps with
    func := some
      { runtime := "NODEJS_12_X"
        handler := "index.handler"
        codeLocation := EXTENSION_ASSETS_PATH ++ "/cf-access-origin-by-geolocation/index.ts"
        bundlingDefine :=
          [("process.env.COUNTRY_CODE_TABLE", jsonStringifiedBundlingDefinitionTable p.countryTable)]
        managedPolicies := [] }
    eventType := some LambdaEdgeEventType.originRequest
    solutionId := some "S08118"
    templateDescription := some "Cloudfront extension with AWS CDK - Access Origin by Geolocation" }

/-- The `CustomProps` assembled by the `RedirectByGeolocation` constructor
(lines 408-427). -/
def redirectByGeolocationCustomProps (p : RedirectByGeolocationProps) : CustomProps :=
  { baseCustomProps with
    func := some
      { runtime := "NODEJS_12_X"
        handler := "index.handler"
        codeLocation := EXTENSION_ASSETS_PATH ++ "/cf-redirect-by-geolocation/index.ts"
        bundlingDefine :=
          [("process.env.COUNTRY_CODE_TABLE", jsonStringifiedBundlingDefinitionTable p.countryTable)]
        managedPolicies := [] }
    eventType := some LambdaEdgeEventType.originRequest
    solutionId := some "SO8135"
    templateDescription := some "Cloudfront extension with AWS CDK - Redirect by Geolocation" }

/-- The `CustomProps` assembled by the `SimpleLambdaEdge` constructor (lines
433-447). -/
def simpleLambdaEdgeProps : CustomProps :=
  { baseCustomProps with
    func := some
      { runtime := "NODEJS_12_X"
        handler := "index.handler"
        codeLocation := EXTENSION_ASSETS_PATH ++ "/simple-lambda-edge/index.ts"
        bundlingDefine := []
        managedPolicies := [] }
    eventType := some LambdaEdgeEventType.viewerRequest
    solutionId := some ""
    templateDescription := some "Cloudfront extension with AWS CDK - Simple Lambda Edge." }

/-- The `CustomProps` assembled by the `OAuth2AuthorizationCodeGrant`
constructor (lines 471-500): each property is serialized into a bundling
definition, in source order. -/
def oauth2AuthorizationCodeGrantCustomProps
    (p : OAuth2AuthorizationCodeGrantProps) : CustomProps :=
  { baseCustomProps with
    func := some
      { runtime := "NODEJS_12_X"
        handler := "index.handler"
        codeLocation := EXTENSION_ASSETS_PATH ++ "/cf-authentication-by-oauth2/index.ts"
        bundlingDefine :=
          [("process.env.CLIENT_ID", jsonStringifiedBundlingDefinitionStr p.clientId),
           ("process.env.CLIENT_SECRET", jsonStringifiedBundlingDefinitionStr p.clientSecret),
           ("process.env.CLIENT_DOMAIN", jsonStringifiedBundlingDefinitionStr p.clientDomain),
           ("process.env.CLIENT_PUBLIC_KEY", jsonStringifiedBundlingDefinitionStr p.clientPublicKey),
           ("process.env.CALLBACK_PATH", jsonStringifiedBundlingDefinitionStr p.callbackPath),
           ("process.env.JWT_ARGORITHM", jsonStringifiedBundlingDefinitionStr p.jwtArgorithm),
           ("process.env.AUTHORIZE_URL", jsonStringifiedBundlingDefinitionStr p.authorizeUrl),
           ("process.env.AUTHORIZE_PARAMS", jsonStringifiedBundlingDefinitionStr p.authorizeParams),
           ("process.env.DEBUG_ENABLE", jsonStringifiedBundlingDefinitionBool p.debugEnable)]
        managedPolicies := [] }
    eventType := some LambdaEdgeEventType.viewerRequest
    solutionId := some "SO8131"
    templateDescription :=
      some "Cloudfront extension with AWS CDK - OAuth2 Authentication - Authorization Code Grant." }

/-- The `CustomProps` assembled by the `GlobalDataIngestion` constructor
(lines 514-540): the stream name is serialized into the
`DELIVERY_STREAM_NAME` bundling definition, the role receives the
`AmazonKinesisFirehoseFullAccess` managed policy (line 528), and the super
call passes `includeBody: true` (line 533). -/
def globalDataIngestionCustomProps (p : GlobalDataIngestionProps) : CustomProps :=
  { baseCustomProps with
    func := some
      { runtime := "NODEJS_12_X"
        handler := "index.handler"
        codeLocation := EXTENSION_ASSETS_PATH ++ "/cf-global-data-ingestion/index.ts"
        bundlingDefine :=
          [("process.env.DELIVERY_STREAM_NAME",
            jsonStringifiedBundlingDefinitionStr p.firehoseStreamName)]
        managedPolicies := ["AmazonKinesisFirehoseFullAccess"] }
    eventType := some LambdaEdgeEventType.viewerRequest
    includeBody := some true
    solutionId := some "SO8133"
    templateDescription := some "Cloudfront extension with AWS CDK - Global Data Ingestion" }

/-- An extension kind paired with its caller-supplied property bag: the input
of one resolver invocation. -/
inductive ExtensionInput
  | modifyResponseHeader
  | antiHotlinking (props : AntiHotlinkingProps)
  | securtyHeaders
  | multipleOriginIpRetry (props : MultipleOriginIpRetryProps)
  | normalizeQueryString
  | custom (props : CustomProps)
  | defaultDirIndex
  | customErrorPage
  | accessOriginByGeolocation (props : AccessOriginByGeolocationProps)
  | redirectByGeolocation (props : RedirectByGeolocationProps)
  | simpleLambdaEdge
  | oauth2AuthorizationCodeGrant (props : OAuth2AuthorizationCodeGrantProps)
  | globalDataIngestion (props : GlobalDataIngestionProps)
deriving DecidableEq, Repr

/-- The closed set of extension kinds. -/
inductive ExtensionKind
  | modifyResponseHeader
  | antiHotlinking
  | securtyHeaders
  | multipleOriginIpRetry
  | normalizeQueryString
  | custom
  | defaultDirIndex
  | customErrorPage
  | accessOriginByGeolocation
  | redirectByGeolocation
  | simpleLambdaEdge
  | oauth2AuthorizationCodeGrant
  | globalDataIngestion
deriving DecidableEq, Repr

/-- The kind of a resolver input. -/
def ExtensionInput.kind : ExtensionInput → ExtensionKind
  | .modifyResponseHeader => ExtensionKind.modifyResponseHeader
  | .antiHotlinking _ => ExtensionKind.antiHotlinking
  | .securtyHeaders => ExtensionKind.securtyHeaders
  | .multipleOriginIpRetry _ => ExtensionKind.multipleOriginIpRetry
  | .normalizeQueryString => ExtensionKind.normalizeQueryString
  | .custom _ => ExtensionKind.custom
  | .defaultDirIndex => ExtensionKind.defaultDirIndex
  | .customErrorPage => ExtensionKind.customErrorPage
  | .accessOriginByGeolocation _ => ExtensionKind.accessOriginByGeolocation
  | .redirectByGeolocation _ => ExtensionKind.redirectByGeolocation
  | .simpleLambdaEdge => ExtensionKind.simpleLambdaEdge
  | .oauth2AuthorizationCodeGrant _ => ExtensionKind.oauth2AuthorizationCodeGrant
  | .globalDataIngestion _ => ExtensionKind.globalDataIngestion

/-- The extension resolver: the pure computation each constructor of
`extensions.ts` performs on its property bag.  Every branch mirrors the
corresponding constructor; none of them throws, so every branch returns
`Except.ok`. -/
def resolve : ExtensionInput → Except ResolveError ExtensionDescriptor
  | .modifyResponseHeader => Except.ok modifyResponseHeaderDescr
  | .antiHotlinking p => Except.ok (antiHotlinkingDescr p)
  | .securtyHeaders => Except.ok securtyHeadersDescr
  | .multipleOriginIpRetry p => Except.ok (multipleOriginIpRetryDescr p)
  | .normalizeQueryString => Except.ok normalizeQueryStringDescr
  | .custom p => Except.ok (customResolve p)
  | .defaultDirIndex => Except.ok (customResolve defaultDirIndexProps)
  | .customErrorPage => Except.ok (customResolve customErrorPageProps)
  | .accessOriginByGeolocation p => Except.ok (customResolve (accessOriginByGeolocationCustomProps p))
  | .redirectByGeolocation p => Except.ok (customResolve (redirectByGeolocationCustomProps p))
  | .simpleLambdaEdge => Except.ok (customResolve simpleLambdaEdgeProps)
  | .oauth2AuthorizationCodeGrant p => Except.ok (customResolve (oauth2AuthorizationCodeGrantCustomProps p))
  | .globalDataIngestion p => Except.ok (customResolve (globalDataIngestionCustomProps p))

/-- Inverse of the two escape passes of `bundlingEscape`: `\,` back to `,`,
then `\"` back to `"`.  Used to state the reversibility claim about the
serialized country table. -/
def bundlingUnescape (s : String) : String :=
  jsReplaceAll (jsReplaceAll s "\\," ",") "\\\"" "\""

/-- JSON escape-sequence decoding for the single character following a
backslash inside a JSON string literal. -/
def jUnescapeChar : Char → Option Char
  | '"' => some '"'
  | '\\' => some '\\'
  | '/' => some '/'
  | 'n' => some '\x0a'
  | 't' => some '\x09'
  | 'r' => some '\x0d'
  | 'b' => some '\x08'
  | 'f' => some '\x0c'
  | _ => none

/-- Body of a JSON string literal: consumes characters up to the closing
quote, decoding escape sequences, and returns the decoded string with the
remaining input. -/
def jStrBody : List Char → String → Option (String × List Char)
  | [], _ => none
  | '\\' :: [], _ => none
  | '\\' :: c :: rest, acc =>
    match jUnescapeChar c with
    | some d => jStrBody rest (acc.push d)
    | none => none
  | '"' :: rest, acc => some (acc, rest)
  | c :: rest, acc => jStrBody rest (acc.push c)

/-- A JSON string literal, opening quote included. -/
def jString : List Char → Option (String × List Char)
  | '"' :: rest => jStrBody rest ""
  | _ => none

/-- One `"key":"value"` entry of a JSON object of strings. -/
def parseEntry (l : List Char) : Option ((String × String) × List Char) :=
  match jString l with
  | some (k, ':' :: rest) =>
    match jString rest with
    | some (v, rest2) => some ((k, v), rest2)
    | none => none
  | _ => none

/-- Comma-separated `"key":"value"` entries, fuelled by the input length. -/
def parseEntries : Nat → List Char → Option (List (String × String) × List Char)
  | 0, _ => none
  | fuel + 1, l =>
    match parseEntry l with
    | none => none
    | some (e, ',' :: rest) =>
      match parseEntries fuel rest with
      | some (es, rest2) => some (e :: es, rest2)
      | none => none
    | some (e, rest) => some ([e], rest)

/-- A complete JSON object of string keys and string values. -/
def parseJsonTable (s : String) : Option (List (String × String)) :=
  match s.data with
  | '\x7b' :: '\x7d' :: [] => some []
  | '\x7b' :: rest =>
    match parseEntries rest.length rest with
    | some (es, ['\x7d']) => some es
    | _ => none
  | _ => none

/-- Deserialization of a bundling-definition country table: undo the escaping
and parse the JSON object. -/
def deserializeCountryTable (s : String) : Option (List (String × String)) :=
  parseJsonTable (bundlingUnescape s)

/-- Whether `pat` occurs as a contiguous subsequence of `l`. -/
def listContainsSub (pat : List Char) : List Char → Bool
  | [] => pat.isPrefixOf []
  | c :: rest => pat.isPrefixOf (c :: rest) || listContainsSub pat rest

/-- The event type each built-in kind is bound to, exactly as the
specification's table states it (the `custom` kind carries no fixed binding;
the value given here for it is never used under the theorems' hypotheses). -/
def claimedEventType : ExtensionKind → LambdaEdgeEventType
  | ExtensionKind.modifyResponseHeader => LambdaEdgeEventType.originResponse
  | ExtensionKind.securtyHeaders => LambdaEdgeEventType.originResponse
  | ExtensionKind.customErrorPage => LambdaEdgeEventType.originResponse
  | ExtensionKind.antiHotlinking => LambdaEdgeEventType.viewerRequest
  | ExtensionKind.normalizeQueryString => LambdaEdgeEventType.viewerRequest
  | ExtensionKind.simpleLambdaEdge => LambdaEdgeEventType.viewerRequest
  | ExtensionKind.oauth2AuthorizationCodeGrant => LambdaEdgeEventType.viewerRequest
  | ExtensionKind.globalDataIngestion => LambdaEdgeEventType.viewerRequest
  | ExtensionKind.multipleOriginIpRetry => LambdaEdgeEventType.originRequest
  | ExtensionKind.defaultDirIndex => LambdaEdgeEventType.originRequest
  | ExtensionKind.accessOriginByGeolocation => LambdaEdgeEventType.originRequest
  | ExtensionKind.redirectByGeolocation => LambdaEdgeEventType.originRequest
  | ExtensionKind.custom => LambdaEdgeEventType.originResponse

/-- The `includeBody` value the constructor chain supplies for a given input,
read off the source: `Custom` forwards the caller's `props.includeBody`
(line 291); `GlobalDataIngestion` passes `includeBody: true` in its super call
(line 533); every other constructor omits the property, leaving the
`IExtensions` default. -/
def requestedIncludeBody : ExtensionInput → Option Bool
  | ExtensionInput.custom p => p.includeBody
  | ExtensionInput.globalDataIngestion _ => some true
  | _ => none

/-- Compatibility predicate of the spec's invariant: body access implies a
request-stage event type. -/
def bodyEventCompat (d : ExtensionDescriptor) : Bool :=
  !d.includeBody
    || (d.eventType == LambdaEdgeEventType.viewerRequest
      || d.eventType == LambdaEdgeEventType.originRequest)

/-- Projection pairing the event type with the body flag of a descriptor. -/
def eventAndBody (d : ExtensionDescriptor) : LambdaEdgeEventType × Bool :=
  (d.eventType, d.includeBody)

/-- The `CustomProps` of the spec's forbidden combination: body access
requested on the origin-response stage. -/
def customBodyOnResponseProps : CustomProps :=
  { baseCustomProps with
    eventType := some LambdaEdgeEventType.originResponse
    includeBody := some true }

/-- The resolver input of the specification's `GlobalDataIngestion` example. -/
def gdiInput : ExtensionInput :=
  ExtensionInput.globalDataIngestion { firehoseStreamName := "stream-1" }

/-- The country table of the specification's geolocation example. -/
def c5CountryTable : List (String × String) := [("US", "a.com"), ("CN", "b.cn")]

/-- Separator-leading join: the tail shape of `String.intercalate`. -/
def jsJoinAux (sep : String) : List String → String
  | [] => ""
  | b :: bs => sep ++ b ++ jsJoinAux sep bs

/-- The accumulator loop of `String.intercalate` prepends its accumulator to a
separator-leading join. -/
theorem intercalate_go_spec (s : String) (as : List String) :
    ∀ a, String.intercalate.go a s as = a ++ jsJoinAux s as := by
  induction as with
  | nil => intro a; exact (String.append_empty a).symm
  | cons b bs ih =>
    intro a
    show String.intercalate.go (a ++ s ++ b) s bs = a ++ (s ++ b ++ jsJoinAux s bs)
    rw [ih]
    simp [String.append_assoc]

/-- Non-empty `jsJoin` is a head followed by a separator-leading join. -/
theorem jsJoin_cons (sep : String) (xs : List String) :
    ∀ x, jsJoin sep (x :: xs) = x ++ jsJoinAux sep xs := by
  induction xs with
  | nil => intro x; exact (String.append_empty x).symm
  | cons y ys ih =>
    intro x
    show x ++ sep ++ jsJoin sep (y :: ys) = x ++ (sep ++ y ++ jsJoinAux sep ys)
    rw [ih]
    simp [String.append_assoc]

/-- The JavaScript array join coincides with the standard library's
`String.intercalate`. -/
theorem jsJoin_eq_intercalate (sep : String) (l : List String) :
    jsJoin sep l = String.intercalate sep l := by
  cases l with
  | nil => rfl
  | cons x xs =>
    show jsJoin sep (x :: xs) = String.intercalate.go x sep xs
    rw [intercalate_go_spec, jsJoin_cons]

/-- C1.  For every built-in extension kind (every kind except `Custom`) and
every property bag, resolution succeeds and the descriptor's event type is the
one fixed by the kind: `ModifyResponseHeader`, `SecurtyHeaders` and
`CustomErrorPage` bind to OriginResponse; `AntiHotlinking`,
`NormalizeQueryString`, `SimpleLambdaEdge`, `OAuth2AuthorizationCodeGrant` and
`GlobalDataIngestion` bind to ViewerRequest; `MultipleOriginIpRetry`,
`DefaultDirIndex`, `AccessOriginByGeolocation` and `RedirectByGeolocation`
bind to OriginRequest. -/
theorem resolve_eventType_fixed_by_kind (i : ExtensionInput)
    (hk : ExtensionInput.kind i ≠ ExtensionKind.custom) :
    Option.map ExtensionDescriptor.eventType (Except.toOption (resolve i))
      = some (claimedEventType (ExtensionInput.kind i)) := by
  cases i
  case custom p => exact absurd rfl hk
  all_goals rfl

/-- Witness for C1 at the `NormalizeQueryString` kind. -/
theorem resolve_eventType_fixed_by_kind_witness :
    ExtensionInput.kind ExtensionInput.normalizeQueryString ≠ ExtensionKind.custom
    ∧ Option.map ExtensionDescriptor.eventType
        (Except.toOption (resolve ExtensionInput.normalizeQueryString))
      = some (claimedEventType (ExtensionInput.kind ExtensionInput.normalizeQueryString)) :=
  ⟨by decide, resolve_eventType_fixed_by_kind ExtensionInput.normalizeQueryString (by decide)⟩

/-- C2 counterexample.  Resolving `AntiHotlinking` with an empty referer list
does not fail with `InvalidConfiguration`: the constructor performs no
validation and returns a descriptor. -/
theorem antiHotlinking_emptyReferer_does_not_error :
    resolve (ExtensionInput.antiHotlinking { referer := [] })
      ≠ Except.error ResolveError.invalidConfiguration :=
  fun h => nomatch h

/-- C2 amended.  Resolving `AntiHotlinking` with an empty referer list
succeeds, producing the parameter `RefererList` bound to the empty string, and
resolution of every kind with every property bag succeeds: no
`InvalidConfiguration` validation exists in the code. -/
theorem resolve_total_and_emptyReferer_ok :
    Option.map ExtensionDescriptor.parameters
        (Except.toOption (resolve (ExtensionInput.antiHotlinking { referer := [] })))
      = some [("RefererList", "")]
    ∧ ∀ i : ExtensionInput, (Except.toOption (resolve i)).isSome = true :=
  ⟨rfl, fun i => by cases i <;> rfl⟩

/-- C3 counterexample.  Resolving `Custom` with `eventType = OriginResponse`
and `includeBody = true` does not fail with
`UnsupportedEventTypeCombination`. -/
theorem custom_bodyOnResponse_does_not_error :
    resolve (ExtensionInput.custom customBodyOnResponseProps)
      ≠ Except.error ResolveError.unsupportedEventTypeCombination :=
  fun h => nomatch h

/-- C3 amended.  Resolving `Custom` with `eventType = OriginResponse` and
`includeBody = true` succeeds and produces a descriptor carrying exactly that
combination: the `Custom` constructor performs no body/event-type
validation. -/
theorem custom_bodyOnResponse_resolves :
    resolve (ExtensionInput.custom customBodyOnResponseProps)
      = Except.ok (customResolve customBodyOnResponseProps)
    ∧ (customResolve customBodyOnResponseProps).eventType = LambdaEdgeEventType.originResponse
    ∧ (customResolve customBodyOnResponseProps).includeBody = true :=
  ⟨rfl, rfl, rfl⟩

/-- C4 counterexample.  A successfully resolved descriptor with
`includeBody = true` and `eventType = OriginResponse` exists, so the claimed
invariant fails over all kinds. -/
theorem includeBody_eventType_invariant_violated :
    Option.map eventAndBody
        (Except.toOption (resolve (ExtensionInput.custom customBodyOnResponseProps)))
      = some (LambdaEdgeEventType.originResponse, true) := rfl

/-- C4 amended.  Every built-in kind (every kind except `Custom`) satisfies
the invariant: if the resolved descriptor has `includeBody = true` then its
event type is ViewerRequest or OriginRequest.  `Custom` descriptors can
violate it, as the caller's combination is taken unchecked. -/
theorem builtin_includeBody_eventType_compat (i : ExtensionInput)
    (hk : ExtensionInput.kind i ≠ ExtensionKind.custom) :
    Option.all bodyEventCompat (Except.toOption (resolve i)) = true := by
  cases i
  case custom p => exact absurd rfl hk
  all_goals rfl

/-- Witness for the amended C4 at the `GlobalDataIngestion` kind, whose
descriptor actually has `includeBody = true`. -/
theorem builtin_includeBody_eventType_compat_witness :
    ExtensionInput.kind gdiInput ≠ ExtensionKind.custom
    ∧ Option.all bodyEventCompat (Except.toOption (resolve gdiInput)) = true :=
  ⟨by decide, builtin_includeBody_eventType_compat gdiInput (by decide)⟩

/-- C5.  Resolving `AccessOriginByGeolocation` with the table
`US: a.com, CN: b.cn` produces exactly one bundling definition,
`process.env.COUNTRY_CODE_TABLE`, whose serialized value contains both
mappings as substrings, and deserializing it (undoing the escaping and parsing
the JSON) reconstructs exactly the original table. -/
theorem accessOriginByGeolocation_serialization_roundtrip :
    Option.map ExtensionDescriptor.bundlingDefine
        (Except.toOption (resolve (ExtensionInput.accessOriginByGeolocation
          { countryTable := c5CountryTable })))
      = some [("process.env.COUNTRY_CODE_TABLE",
          jsonStringifiedBundlingDefinitionTable c5CountryTable)]
    ∧ listContainsSub "\\\"US\\\":\\\"a.com\\\"".data
        (jsonStringifiedBundlingDefinitionTable c5CountryTable).data = true
    ∧ listContainsSub "\\\"CN\\\":\\\"b.cn\\\"".data
        (jsonStringifiedBundlingDefinitionTable c5CountryTable).data = true
    ∧ deserializeCountryTable (jsonStringifiedBundlingDefinitionTable c5CountryTable)
      = some c5CountryTable :=
  ⟨rfl, by decide, by decide, by decide⟩

/-- C6.  Resolving `GlobalDataIngestion` with stream name `stream-1` yields a
descriptor with event type ViewerRequest, `includeBody = true`, and required
managed policies containing (here: equal to) the
`AmazonKinesisFirehoseFullAccess` policy name. -/
theorem globalDataIngestion_descriptor_fields :
    Option.map ExtensionDescriptor.eventType (Except.toOption (resolve gdiInput))
      = some LambdaEdgeEventType.viewerRequest
    ∧ Option.map ExtensionDescriptor.includeBody (Except.toOption (resolve gdiInput))
      = some true
    ∧ Option.map ExtensionDescriptor.requiredManagedPolicies (Except.toOption (resolve gdiInput))
      = some ["AmazonKinesisFirehoseFullAccess"] :=
  ⟨rfl, rfl, rfl⟩

/-- C7.  Resolution is deterministic: two resolutions of the same input that
succeed yield descriptors that agree field by field. -/
theorem resolve_deterministic (i : ExtensionInput) (d₁ d₂ : ExtensionDescriptor)
    (h₁ : resolve i = Except.ok d₁) (h₂ : resolve i = Except.ok d₂) :
    d₁.eventType = d₂.eventType ∧ d₁.includeBody = d₂.includeBody
    ∧ d₁.runtime = d₂.runtime ∧ d₁.handler = d₂.handler
    ∧ d₁.codeLocation = d₂.codeLocation ∧ d₁.parameters = d₂.parameters
    ∧ d₁.bundlingDefine = d₂.bundlingDefine
    ∧ d₁.requiredManagedPolicies = d₂.requiredManagedPolicies
    ∧ d₁.applicationId = d₂.applicationId ∧ d₁.semanticVersion = d₂.semanticVersion
    ∧ d₁.solutionId = d₂.solutionId ∧ d₁.templateDescription = d₂.templateDescription := by
  have e : Except.ok (ε := ResolveError) d₁ = Except.ok d₂ := h₁.symm.trans h₂
  injection e with e
  subst e
  exact ⟨rfl, rfl, rfl, rfl, rfl, rfl, rfl, rfl, rfl, rfl, rfl, rfl⟩

/-- Witness for C7 at the `ModifyResponseHeader` kind. -/
theorem resolve_deterministic_witness :
    resolve ExtensionInput.modifyResponseHeader = Except.ok modifyResponseHeaderDescr
    ∧ modifyResponseHeaderDescr.eventType = modifyResponseHeaderDescr.eventType
    ∧ modifyResponseHeaderDescr.parameters = modifyResponseHeaderDescr.parameters :=
  ⟨rfl,
    (resolve_deterministic ExtensionInput.modifyResponseHeader
      modifyResponseHeaderDescr modifyResponseHeaderDescr rfl rfl).1,
    (resolve_deterministic ExtensionInput.modifyResponseHeader
      modifyResponseHeaderDescr modifyResponseHeaderDescr rfl rfl).2.2.2.2.2.1⟩

/-- C8.  Whenever the constructor chain does not request body access — the
caller omits `includeBody` or sets it to `false` for `Custom`, and any kind
other than `GlobalDataIngestion` (whose own constructor passes
`includeBody: true`) — the resolved descriptor has `includeBody = false`, the
documented default. -/
theorem includeBody_defaults_false (i : ExtensionInput)
    (h : requestedIncludeBody i ≠ some true) :
    Option.map ExtensionDescriptor.includeBody (Except.toOption (resolve i))
      = some false := by
  cases i
  case custom p =>
    have e : Option.map ExtensionDescriptor.includeBody
        (Except.toOption (resolve (ExtensionInput.custom p)))
        = some (p.includeBody.getD false) := rfl
    rw [e]
    cases hb : p.includeBody with
    | none => rfl
    | some b =>
      cases b with
      | false => rfl
      | true => exact absurd hb h
  case globalDataIngestion p => exact absurd rfl h
  all_goals rfl

/-- Witness for C8: `Custom` with `includeBody` omitted resolves to a
descriptor with `includeBody = false`. -/
theorem includeBody_defaults_false_witness :
    requestedIncludeBody (ExtensionInput.custom baseCustomProps) ≠ some true
    ∧ Option.map ExtensionDescriptor.includeBody
        (Except.toOption (resolve (ExtensionInput.custom baseCustomProps)))
      = some false :=
  ⟨by decide, includeBody_defaults_false (ExtensionInput.custom baseCustomProps) (by decide)⟩

/-- C9.  The event type of a resolved `Custom` descriptor is the caller's
`eventType` when supplied and `OriginResponse` when omitted — exactly
`props.eventType` with default `OriginResponse`. -/
theorem custom_eventType_default_originResponse (p : CustomProps) :
    Option.map ExtensionDescriptor.eventType
        (Except.toOption (resolve (ExtensionInput.custom p)))
      = some (p.eventType.getD LambdaEdgeEventType.originResponse) := rfl

/-- C10.  `AntiHotlinking` produces the `RefererList` parameter equal to the
referer list joined with a comma separator, and `MultipleOriginIpRetry`
produces the `OriginIPList` parameter equal to the origin IP list joined with
a semicolon separator together with the `OriginProtocol` parameter passed
verbatim — for every list and protocol. -/
theorem list_parameters_joined (referer ips : List String) (proto : String) :
    Option.map ExtensionDescriptor.parameters
        (Except.toOption (resolve (ExtensionInput.antiHotlinking { referer := referer })))
      = some [("RefererList", String.intercalate "," referer)]
    ∧ Option.map ExtensionDescriptor.parameters
        (Except.toOption (resolve (ExtensionInput.multipleOriginIpRetry
          { originIp := ips, originProtocol := proto })))
      = some [("OriginIPList", String.intercalate ";" ips), ("OriginProtocol", proto)] := by
  constructor
  · show some [("RefererList", jsJoin "," referer)] = _
    rw [jsJoin_eq_intercalate]
  · show some [("OriginIPList", jsJoin ";" ips), ("OriginProtocol", proto)] = _
    rw [jsJoin_eq_intercalate]
